import Mathlib

/-
Verification development for the dexcom-js repository.

The definitions below are a shallow embedding of the JavaScript sources:

  * src/helpers.js      : validators, the time formatter dexcomifyEpochTime,
                          and the token lifecycle function refreshAccessToken
  * src/index.js        : the DexcomJS data-fetch operations
  * src/options.js      : the process-wide configuration store
  * src/schema.js       : the JSON schemas used by the validators
  * src/unnamed/part_000: the DexcomData module with response normalization
  * src/unnamed/part_001: the 89-day range splitter and rangeInDayIntervals

JavaScript numbers that hold epoch times or token lifetimes are modelled as
Int (or Nat where the source precondition forces them non-negative), machine
booleans as Bool, thrown exceptions as an Except monad over the JsError type,
undefined or absent values as Option, and object identity of token envelopes
as references into an explicit store.
-/

namespace DexcomJsModel

/-- Errors a JavaScript evaluation can throw: an unresolved identifier in
strict mode, a property read on undefined, or a failed assert call. -/
inductive JsError where
  | referenceError (ident : String)
  | typeError (msg : String)
  | assertionError (msg : String)
deriving Repr, DecidableEq

/-- Truthiness of an optional numeric JavaScript value: undefined and 0 are
falsy, every other number is truthy (NaN does not arise for integer inputs). -/
def jsTruthyNum (v : Option Int) : Bool :=
  match v with
  | none => false
  | some n => n != 0

/-- Truthiness of an optional string JavaScript value: undefined and the empty
string are falsy. -/
def jsTruthyStr (v : Option String) : Bool :=
  match v with
  | none => false
  | some s => s != ""

/-- Embedding of the assert function from the Node assert module: throw an
AssertionError when the condition is falsy. -/
def assertE (b : Bool) (msg : String) : Except JsError Unit :=
  if b then .ok () else .error (.assertionError msg)

/-! ## Constants from src/helpers.js -/

/-- Constant millisecondsPerSecond from src/helpers.js line 26. -/
def millisecondsPerSecond : Int := 1000

/-- Constant aboutToExpireThresholdSeconds from src/helpers.js line 34. -/
def aboutToExpireThresholdSeconds : Int := 60

/-! ## Time formatter (dexcomifyEpochTime, src/helpers.js lines 137-141)

The source is
  const date       = new Date(epochTime);
  const dateString = date.toISOString().slice(0, 19);
The Date.prototype.toISOString builtin is specified by ECMAScript: render the
UTC proleptic-Gregorian calendar fields of the time value in the form
YYYY-MM-DDThh:mm:ss.sssZ, using a zero-padded four-digit year when the year
lies in 0..9999 and the expanded form (a sign followed by six digits)
otherwise.  The calendar conversion below is the standard days-to-civil
algorithm restricted to non-negative inputs, which is the domain the claims
quantify over. -/

/-- Number of milliseconds in one day. -/
def millisPerDay : Nat := 86400000

/-- Convert a count of days since 1970-01-01 to a Gregorian (year, month, day)
triple, for non-negative day counts. -/
def civilFromDays (days : Nat) : Nat × Nat × Nat :=
  let z := days + 719468
  let era := z / 146097
  let doe := z % 146097
  let yoe := (doe - doe / 1460 + doe / 36524 - doe / 146096) / 365
  let y := yoe + era * 400
  let doy := doe - (365 * yoe + yoe / 4 - yoe / 100)
  let mp := (5 * doy + 2) / 153
  let d := doy - (153 * mp + 2) / 5 + 1
  let m := if mp < 10 then mp + 3 else mp - 9
  (if m ≤ 2 then y + 1 else y, m, d)

/-- Character for the last decimal digit of a number. -/
def digitChar (n : Nat) : Char := Char.ofNat (48 + n % 10)

/-- Zero-padded two-digit decimal rendering (as toISOString uses for month,
day, hour, minute and second fields). -/
def pad2 (n : Nat) : String := String.mk [digitChar (n / 10), digitChar n]

/-- Zero-padded three-digit decimal rendering (milliseconds field). -/
def pad3 (n : Nat) : String :=
  String.mk [digitChar (n / 100), digitChar (n / 10), digitChar n]

/-- Zero-padded four-digit decimal rendering (years 0..9999). -/
def pad4 (n : Nat) : String :=
  String.mk [digitChar (n / 1000), digitChar (n / 100), digitChar (n / 10), digitChar n]

/-- Zero-padded six-digit decimal rendering (expanded years). -/
def pad6 (n : Nat) : String :=
  String.mk [digitChar (n / 100000), digitChar (n / 10000), digitChar (n / 1000),
    digitChar (n / 100), digitChar (n / 10), digitChar n]

/-- Embedding of new Date(t).toISOString() for a non-negative time value t in
milliseconds, per the ECMAScript specification of the builtin. -/
def toISOString (t : Nat) : String :=
  let days := t / millisPerDay
  let msOfDay := t % millisPerDay
  let c := civilFromDays days
  let y := c.1
  let m := c.2.1
  let d := c.2.2
  let hh := msOfDay / 3600000
  let mm := msOfDay % 3600000 / 60000
  let ss := msOfDay % 60000 / 1000
  let ms := msOfDay % 1000
  let yearStr := if y ≤ 9999 then pad4 y else "+" ++ pad6 y
  yearStr ++ "-" ++ pad2 m ++ "-" ++ pad2 d ++ "T" ++ pad2 hh ++ ":" ++ pad2 mm
    ++ ":" ++ pad2 ss ++ "." ++ pad3 ms ++ "Z"

/-- Embedding of the String.prototype.slice(0, 19) call: keep the first 19
code units (the rendered string is ASCII, so code units are characters). -/
def jsSlice0to19 (s : String) : String := String.mk (s.data.take 19)

/-- Embedding of dexcomifyEpochTime from src/helpers.js lines 137-141. -/
def dexcomifyEpochTime (epochTime : Nat) : String :=
  jsSlice0to19 (toISOString epochTime)

/-- Largest time value accepted by a JavaScript Date (8.64e15 milliseconds). -/
def maxJsDateMillis : Nat := 8640000000000000

/-- First millisecond of the proleptic-Gregorian UTC year 10000. -/
def year10000Millis : Nat := 253402300800000

/-- Predicate from the specification words for claim C4: the string consists
of exactly nineteen characters in the shape YYYY-MM-DDThh:mm:ss, decimal
digits everywhere except the fixed separators. -/
def isDexcomDateString (s : String) : Bool :=
  match s.data with
  | [y1, y2, y3, y4, s1, m1, m2, s2, d1, d2, s3, h1, h2, s4, n1, n2, s5, e1, e2] =>
    y1.isDigit && y2.isDigit && y3.isDigit && y4.isDigit && s1 == '-' &&
    m1.isDigit && m2.isDigit && s2 == '-' && d1.isDigit && d2.isDigit &&
    s3 == 'T' && h1.isDigit && h2.isDigit && s4 == ':' && n1.isDigit &&
    n2.isDigit && s5 == ':' && e1.isDigit && e2.isDigit
  | _ => false

/-! ## Data model (src/schema.js, first exported version)

The JSON schemas constrain the values the validators accept.  A JavaScript
object may omit a property, so candidate objects carry Option fields; a token
returned by the provider is modelled with its four string and integer fields
directly. -/

/-- Contents of a dexcomOAuthToken object (schema DexcomOAuthToken,
src/schema.js lines 38-53). -/
structure DexcomOAuthToken where
  access_token : String
  expires_in : Int
  token_type : String
  refresh_token : String
deriving Repr, DecidableEq

/-- Token envelope passed between the caller and the package (schema
OAuthTokens, src/schema.js lines 58-69). -/
structure OAuthTokens where
  timestamp : Int
  dexcomOAuthToken : DexcomOAuthToken
deriving Repr, DecidableEq

/-- Candidate configuration object as seen by validateOptions: each of the
four properties may be absent (schema PackageOptions, src/schema.js
lines 18-33). -/
structure PackageOptionsObj where
  clientId : Option String
  clientSecret : Option String
  redirectUri : Option String
  apiUri : Option String
deriving Repr, DecidableEq

/-- Schema EpochTime from src/schema.js lines 8-13: an integer between 0 and
9223372036854775807. -/
def schemaEpochTimeValid (n : Int) : Bool :=
  decide (0 ≤ n) && decide (n ≤ 9223372036854775807)

/-- Schema DexcomOAuthToken checks from src/schema.js lines 38-53: string
length bounds on the three token strings and the 0..7200 bound on the
lifetime. -/
def validDexcomOAuthToken (tk : DexcomOAuthToken) : Bool :=
  decide (1 ≤ tk.access_token.length) && decide (tk.access_token.length ≤ 1024) &&
  decide (0 ≤ tk.expires_in) && decide (tk.expires_in ≤ 7200) &&
  decide (1 ≤ tk.token_type.length) && decide (tk.token_type.length ≤ 6) &&
  decide (1 ≤ tk.refresh_token.length) && decide (tk.refresh_token.length ≤ 1024)

/-- Schema OAuthTokens from src/schema.js lines 58-69: both properties
required, the timestamp an EpochTime, the inner object a DexcomOAuthToken. -/
def validOAuthTokensObj (tok : OAuthTokens) : Bool :=
  schemaEpochTimeValid tok.timestamp && validDexcomOAuthToken tok.dexcomOAuthToken

/-- Schema PackageOptions from src/schema.js lines 18-33: all four properties
required and strings, clientId 1..32 characters, clientSecret 1..16
characters, the two URIs matching the uri format check of the jsonschema
library (kept as the parameter uriOk, since no claim depends on the exact
regular expression used for it). -/
def validPackageOptions (uriOk : String → Bool) (o : PackageOptionsObj) : Bool :=
  (match o.clientId with
   | some s => decide (1 ≤ s.length) && decide (s.length ≤ 32)
   | none => false) &&
  (match o.clientSecret with
   | some s => decide (1 ≤ s.length) && decide (s.length ≤ 16)
   | none => false) &&
  (match o.redirectUri with
   | some s => uriOk s
   | none => false) &&
  (match o.apiUri with
   | some s => uriOk s
   | none => false)

/-! ## Validators from src/helpers.js -/

/-- Embedding of validateOptions (src/helpers.js lines 55-61): assert the
argument is truthy (undefined and null are falsy, objects truthy), then
assert the jsonschema validation against PackageOptions succeeds. -/
def validateOptions (uriOk : String → Bool) (options : Option PackageOptionsObj) :
    Except JsError Unit := do
  assertE options.isSome "options must be provided"
  match options with
  | none => pure ()
  | some o => assertE (validPackageOptions uriOk o) "options must be valid"

/-- Embedding of validateOAuthTokens (src/helpers.js lines 90-100). -/
def validateOAuthTokens (oauthTokens : Option OAuthTokens) : Except JsError Unit := do
  assertE oauthTokens.isSome "oauthTokens must be provided"
  match oauthTokens with
  | none => pure ()
  | some tok => assertE (validOAuthTokensObj tok) "oauthTokens must be valid"

/-- Embedding of validateTimeWindow (src/helpers.js lines 111-124).  The two
arguments are JavaScript numbers or undefined; assert(startTime) tests
truthiness, so the number 0 fails the provided check exactly as undefined
does.  The schema checks then run on values known to be nonzero numbers, and
the final assert is the strict comparison. -/
def validateTimeWindow (startTime endTime : Option Int) : Except JsError Unit := do
  assertE (jsTruthyNum startTime) "startTime must be provided"
  assertE (jsTruthyNum endTime) "endTime must be provided"
  assertE (schemaEpochTimeValid (startTime.getD 0)) "startTime must be valid"
  assertE (schemaEpochTimeValid (endTime.getD 0)) "endTime must be valid"
  assertE (decide (startTime.getD 0 < endTime.getD 0)) "startTime must be < endTime"

/-! ## Token envelope store

JavaScript passes the token envelope by reference.  To state the claims
about reference identity (the !== comparisons in src/index.js) and about
absence of mutation, envelope objects live in an explicit store: a reference
is an index, allocation prepends a binding at the next free index. -/

/-- Reference to a token-envelope object. -/
abbrev Ref := Nat

/-- Store of token-envelope objects, with the next allocation index. -/
structure TokenStore where
  next : Ref
  mem : List (Ref × OAuthTokens)
deriving Repr, DecidableEq

/-- Read the object a reference denotes. -/
def TokenStore.get (s : TokenStore) (r : Ref) : Option OAuthTokens :=
  (s.mem.find? (fun p => p.1 == r)).map (fun p => p.2)

/-- Allocate a fresh object, returning its reference and the grown store. -/
def TokenStore.alloc (s : TokenStore) (v : OAuthTokens) : Ref × TokenStore :=
  (s.next, ⟨s.next + 1, (s.next, v) :: s.mem⟩)

/-! ## refreshAccessToken (src/helpers.js lines 181-213)

The module scope of src/helpers.js binds (lines 12-14 and the declarations
of the file, plus the CommonJS wrapper parameters) the identifiers listed
below.  The refresh branch of refreshAccessToken evaluates the expression
querystring.stringify(...) first, then this.options.clientId inside the
argument object, then httpClient.post(...); the file is strict-mode code, so
an identifier that resolves to no binding throws a ReferenceError at the
point of use. -/

/-- Identifiers bound in the scope chain of functions defined in
src/helpers.js: the three require results of lines 12-14, the two constants,
the six function declarations, and the CommonJS wrapper parameters. -/
def helpersModuleScope : List String :=
  ["assert", "Validator", "schema",
   "millisecondsPerSecond", "aboutToExpireThresholdSeconds",
   "validateOptions", "validateSandboxAuthcode", "validateOAuthTokens",
   "validateTimeWindow", "dexcomifyEpochTime", "refreshAccessToken",
   "exports", "require", "module", "__filename", "__dirname"]

/-- Ambient facts a call of refreshAccessToken runs under: the scope chain in
which its free identifiers resolve, the value of this.options at the call,
the outcome the token endpoint would give the refresh exchange, and the
wall-clock time new Date().getTime() would read when the new envelope is
built. -/
structure RefreshEnv where
  scope : List String
  thisOptions : Option PackageOptionsObj
  httpResult : Except JsError DexcomOAuthToken
  acquisitionTime : Int

/-- Call environment produced by the data-fetch operations of src/index.js:
they invoke helpers.refreshAccessToken, so the scope chain is the helpers
module scope and this is the helpers exports object, which has no options
property. -/
def helpersCallEnv (httpResult : Except JsError DexcomOAuthToken)
    (acquisitionTime : Int) : RefreshEnv :=
  ⟨helpersModuleScope, none, httpResult, acquisitionTime⟩

/-- Embedding of refreshAccessToken (src/helpers.js lines 181-213).  The
guard of lines 182-184 compares Date.now() plus the threshold against the
expiry instant; when it passes, the very reference received is returned and
the store is untouched.  Otherwise the refresh branch runs: resolving
querystring (line 191) throws unless the scope binds it, reading
this.options.clientId (line 192) throws unless this.options is an object,
resolving httpClient (line 205) throws unless the scope binds it, the
exchange outcome is the oracle value, and a brand-new envelope object is
allocated with the wall-clock timestamp (lines 209-212). -/
def refreshAccessToken (env : RefreshEnv) (now : Int) (store : TokenStore)
    (oauthTokensRef : Ref) (force : Bool) : TokenStore × Except JsError Ref :=
  match store.get oauthTokensRef with
  | none => (store, .error (.typeError "Cannot read properties of undefined (reading timestamp)"))
  | some oauthTokens =>
    if !force && decide (now + aboutToExpireThresholdSeconds * millisecondsPerSecond <
        oauthTokens.timestamp + oauthTokens.dexcomOAuthToken.expires_in * millisecondsPerSecond)
    then
      (store, .ok oauthTokensRef)
    else
      if !(env.scope.contains "querystring") then
        (store, .error (.referenceError "querystring"))
      else match env.thisOptions with
      | none => (store, .error (.typeError "Cannot read properties of undefined (reading clientId)"))
      | some _ =>
        if !(env.scope.contains "httpClient") then
          (store, .error (.referenceError "httpClient"))
        else match env.httpResult with
        | .error e => (store, .error e)
        | .ok data =>
          let alloc := store.alloc { timestamp := env.acquisitionTime, dexcomOAuthToken := data }
          (alloc.2, .ok alloc.1)

/-! ## Data-fetch operations (src/index.js)

Every operation validates the stored options, the token envelope and (except
getDataRange) the time window, obtains a possibly refreshed envelope through
helpers.refreshAccessToken with force set to false, issues the HTTP request,
and builds the result object, attaching the oauthTokens property exactly when
the strict inequality comparison possiblyRefreshedOauthTokens !== oauthTokens
holds.  The HTTP layer is an external collaborator, so the response payload
enters the model as the httpData oracle value and flows through untouched,
exactly as result.data does in the source. -/

/-- Ambient inputs of one data-fetch call: the stored configuration read by
options.get(), the uri format check of the jsonschema library, the value of
Date.now() during the refresh guard, the oracle values for the (unreachable)
refresh exchange, and the payload of the data request. -/
structure FetchEnv (α : Type) where
  storedOptions : Option PackageOptionsObj
  uriOk : String → Bool
  now : Int
  refreshHttpResult : Except JsError DexcomOAuthToken
  refreshAcquisitionTime : Int
  httpData : α

/-- Result object of a data-fetch operation: the category-named field
(estimatedGlucoseValues, events, dataRange, calibrations or statistics)
holding the payload, and the optional oauthTokens property. -/
structure FetchResult (α : Type) where
  payload : α
  oauthTokens : Option Ref
deriving Repr, DecidableEq

/-- Embedding of DexcomJS.getEstimatedGlucoseValues (src/index.js
lines 142-160). -/
def DexcomJS.getEstimatedGlucoseValues {α : Type} (fe : FetchEnv α) (store : TokenStore)
    (oauthTokensRef : Ref) (startTime endTime : Option Int) :
    TokenStore × Except JsError (FetchResult α) :=
  match validateOptions fe.uriOk fe.storedOptions with
  | .error e => (store, .error e)
  | .ok _ =>
  match validateOAuthTokens (store.get oauthTokensRef) with
  | .error e => (store, .error e)
  | .ok _ =>
  match validateTimeWindow startTime endTime with
  | .error e => (store, .error e)
  | .ok _ =>
  match refreshAccessToken (helpersCallEnv fe.refreshHttpResult fe.refreshAcquisitionTime)
      fe.now store oauthTokensRef false with
  | (store1, .error e) => (store1, .error e)
  | (store1, .ok possiblyRefreshedRef) =>
    (store1, .ok { payload := fe.httpData,
                   oauthTokens := if possiblyRefreshedRef != oauthTokensRef
                                  then some possiblyRefreshedRef else none })

/-- Embedding of DexcomJS.getEvents (src/index.js lines 203-221); the body is
line for line the same token handling as getEstimatedGlucoseValues around a
different endpoint. -/
def DexcomJS.getEvents {α : Type} (fe : FetchEnv α) (store : TokenStore)
    (oauthTokensRef : Ref) (startTime endTime : Option Int) :
    TokenStore × Except JsError (FetchResult α) :=
  match validateOptions fe.uriOk fe.storedOptions with
  | .error e => (store, .error e)
  | .ok _ =>
  match validateOAuthTokens (store.get oauthTokensRef) with
  | .error e => (store, .error e)
  | .ok _ =>
  match validateTimeWindow startTime endTime with
  | .error e => (store, .error e)
  | .ok _ =>
  match refreshAccessToken (helpersCallEnv fe.refreshHttpResult fe.refreshAcquisitionTime)
      fe.now store oauthTokensRef false with
  | (store1, .error e) => (store1, .error e)
  | (store1, .ok possiblyRefreshedRef) =>
    (store1, .ok { payload := fe.httpData,
                   oauthTokens := if possiblyRefreshedRef != oauthTokensRef
                                  then some possiblyRefreshedRef else none })

/-- Embedding of DexcomJS.getDataRange (src/index.js lines 256-270): same
shape, with no time window to validate. -/
def DexcomJS.getDataRange {α : Type} (fe : FetchEnv α) (store : TokenStore)
    (oauthTokensRef : Ref) : TokenStore × Except JsError (FetchResult α) :=
  match validateOptions fe.uriOk fe.storedOptions with
  | .error e => (store, .error e)
  | .ok _ =>
  match validateOAuthTokens (store.get oauthTokensRef) with
  | .error e => (store, .error e)
  | .ok _ =>
  match refreshAccessToken (helpersCallEnv fe.refreshHttpResult fe.refreshAcquisitionTime)
      fe.now store oauthTokensRef false with
  | (store1, .error e) => (store1, .error e)
  | (store1, .ok possiblyRefreshedRef) =>
    (store1, .ok { payload := fe.httpData,
                   oauthTokens := if possiblyRefreshedRef != oauthTokensRef
                                  then some possiblyRefreshedRef else none })

/-- Embedding of DexcomJS.getCalibrations (src/index.js lines 313-331). -/
def DexcomJS.getCalibrations {α : Type} (fe : FetchEnv α) (store : TokenStore)
    (oauthTokensRef : Ref) (startTime endTime : Option Int) :
    TokenStore × Except JsError (FetchResult α) :=
  match validateOptions fe.uriOk fe.storedOptions with
  | .error e => (store, .error e)
  | .ok _ =>
  match validateOAuthTokens (store.get oauthTokensRef) with
  | .error e => (store, .error e)
  | .ok _ =>
  match validateTimeWindow startTime endTime with
  | .error e => (store, .error e)
  | .ok _ =>
  match refreshAccessToken (helpersCallEnv fe.refreshHttpResult fe.refreshAcquisitionTime)
      fe.now store oauthTokensRef false with
  | (store1, .error e) => (store1, .error e)
  | (store1, .ok possiblyRefreshedRef) =>
    (store1, .ok { payload := fe.httpData,
                   oauthTokens := if possiblyRefreshedRef != oauthTokensRef
                                  then some possiblyRefreshedRef else none })

/-- Embedding of DexcomJS.getStatistics (src/index.js lines 374-435); the
fixed request body only affects the HTTP call, which the payload oracle
stands for. -/
def DexcomJS.getStatistics {α : Type} (fe : FetchEnv α) (store : TokenStore)
    (oauthTokensRef : Ref) (startTime endTime : Option Int) :
    TokenStore × Except JsError (FetchResult α) :=
  match validateOptions fe.uriOk fe.storedOptions with
  | .error e => (store, .error e)
  | .ok _ =>
  match validateOAuthTokens (store.get oauthTokensRef) with
  | .error e => (store, .error e)
  | .ok _ =>
  match validateTimeWindow startTime endTime with
  | .error e => (store, .error e)
  | .ok _ =>
  match refreshAccessToken (helpersCallEnv fe.refreshHttpResult fe.refreshAcquisitionTime)
      fe.now store oauthTokensRef false with
  | (store1, .error e) => (store1, .error e)
  | (store1, .ok possiblyRefreshedRef) =>
    (store1, .ok { payload := fe.httpData,
                   oauthTokens := if possiblyRefreshedRef != oauthTokensRef
                                  then some possiblyRefreshedRef else none })

/-! ## Configuration store (src/options.js) -/

/-- Embedding of the private validate function of src/options.js
lines 60-66 (the same checks as helpers.validateOptions). -/
def OptionsModule.validate (uriOk : String → Bool)
    (options : Option PackageOptionsObj) : Except JsError Unit := do
  assertE options.isSome "options must be provided"
  match options with
  | none => pure ()
  | some o => assertE (validPackageOptions uriOk o) "options must be valid"

/-- Embedding of the set function of src/options.js lines 37-40: validate the
candidate, then assign it to the module-level options variable.  A thrown
validation error propagates before the assignment, so the pair returned here
carries the outcome and the stored configuration after the call. -/
def OptionsModule.set (uriOk : String → Bool) (stored : PackageOptionsObj)
    (newOptions : Option PackageOptionsObj) :
    Except JsError Unit × PackageOptionsObj :=
  match OptionsModule.validate uriOk newOptions with
  | .error e => (.error e, stored)
  | .ok _ => (.ok (), newOptions.getD stored)

/-! ## The 89-day range splitter
(DexcomJS.getEstimatedGlucoseValuesAnyDateRange, src/unnamed/part_001
lines 738-749) -/

/-- Constant maxTimeRangeMilliSec of line 738: 89 days in milliseconds. -/
def maxTimeRangeMilliSec : Int := 89 * 86400 * 1000

/-- One element of the times array: a sub-window of the requested span. -/
structure TimeWindow where
  startTime : Int
  endTime : Int
deriving Repr, DecidableEq

/-- Embedding of the while loop of lines 741-749: starting from timeIndex =
startTime, push a window from timeIndex to the clamped end, advance by 89
days, and stop once timeIndex exceeds endTime. -/
def splitTimeWindows (timeIndex endTime : Int) : List TimeWindow :=
  if timeIndex ≤ endTime then
    let endTimeWindow := timeIndex + maxTimeRangeMilliSec
    let endTimeWindow := if endTimeWindow ≤ endTime then endTimeWindow else endTime
    ⟨timeIndex, endTimeWindow⟩ :: splitTimeWindows (timeIndex + maxTimeRangeMilliSec) endTime
  else
    []
termination_by (endTime + 1 - timeIndex).toNat
decreasing_by
  simp only [maxTimeRangeMilliSec]
  omega

/-! ## rangeInDayIntervals (src/unnamed/part_001 lines 1645-1666) -/

/-- Record carrying a provider-supplied systemTime string, as found in the
start and end members of a data-range category. -/
structure SystemTimeRecord where
  systemTime : String
deriving Repr, DecidableEq

/-- One category of the data range returned by the provider. -/
structure DataRangeCategory where
  start : SystemTimeRecord
  «end» : SystemTimeRecord
deriving Repr, DecidableEq

/-- Return object of rangeInDayIntervals. -/
structure DayIntervalRange where
  startTime : Int
  endTime : Int
  valid : Bool
deriving Repr, DecidableEq

/-- Embedding of new Date(t).setHours(0, 0, 0, 0): the instant of the most
recent midnight of the local calendar, for a representation whose fixed
offset from UTC is tzOffsetMs milliseconds (positive east). -/
def jsSetHoursZero (tzOffsetMs : Int) (t : Int) : Int :=
  t - (t + tzOffsetMs) % 86400000

/-- Embedding of DexcomJS.rangeInDayIntervals (src/unnamed/part_001
lines 1645-1666).  Date parsing of the provider strings is the external
parseDate collaborator; the source reads dataRange.end.systemTime into a
variable it never uses, reproduced here for fidelity. -/
def rangeInDayIntervals (parseDate : String → Int) (tzOffsetMs : Int)
    (dataRange : DataRangeCategory) (endTime : Int) (daysPast : Int) :
    DayIntervalRange :=
  let startDateString := dataRange.start.systemTime
  let _endDateString := dataRange.«end».systemTime
  let startTime0 := endTime - daysPast * 86400 * 1000
  let midnightStartTime := jsSetHoursZero tzOffsetMs startTime0
  let availableStartTime := parseDate startDateString
  let startTime1 := if midnightStartTime < availableStartTime then availableStartTime
                    else midnightStartTime
  { startTime := startTime1, endTime := endTime, valid := true }

/-! ## Response normalization in the DexcomData module (src/unnamed/part_000)

DexcomData.getData, DexcomData.getEvents and DexcomData.getCalibrations fetch
a payload and, when the category list is an array, map every element through
an annotation step; the HTTP result enters the model as the data argument,
and the functions below are the part of each operation from the line
let data = result.data onwards. -/

/-- Record of the egvs list of a glucose response, with the fields the
normalization step reads or writes; fields absent on the wire are none. -/
structure EgvRecord where
  systemTime : String
  displayTime : String
  unit : Option String
  rateUnit : Option String
  systemEpochTime : Option Int
  displayEpochTime : Option Int
  type : Option String
deriving Repr, DecidableEq

/-- Response body of the glucose endpoint: response-level default units and
the egvs list (none when the body lacks an array there). -/
structure EgvsResponse where
  unit : Option String
  rateUnit : Option String
  egvs : Option (List EgvRecord)
deriving Repr, DecidableEq

/-- Record of the events or calibrations list, with the fields the
annotation step reads or writes. -/
structure TimedRecord where
  systemTime : String
  displayTime : String
  systemEpochTime : Option Int
  displayEpochTime : Option Int
  type : Option String
deriving Repr, DecidableEq

/-- Response body of the events endpoint. -/
structure EventsResponse where
  events : Option (List TimedRecord)
deriving Repr, DecidableEq

/-- Response body of the calibrations endpoint. -/
structure CalibrationsResponse where
  calibrations : Option (List TimedRecord)
deriving Repr, DecidableEq

/-- Value DexcomData.getData returns: either the raw response (when the body
holds no array) or the normalized record list. -/
inductive DexcomDataResult (ρ : Type) (β : Type) where
  | raw (data : Option ρ)
  | records (l : List β)
deriving Repr, DecidableEq

/-- Embedding of the map callback of src/unnamed/part_000 lines 142-153:
backfill unit and rateUnit from the response-level defaults when the record
has falsy values there, then set the two parsed epoch mirrors and the literal
category tag. -/
def normalizeEgvRecord (parseDate : String → Int) (respUnit respRateUnit : Option String)
    (el : EgvRecord) : EgvRecord :=
  let el1 := if !(jsTruthyStr el.unit) && jsTruthyStr respUnit
             then { el with unit := respUnit } else el
  let el2 := if !(jsTruthyStr el1.rateUnit) && jsTruthyStr respRateUnit
             then { el1 with rateUnit := respRateUnit } else el1
  { el2 with systemEpochTime := some (parseDate el2.systemTime),
             displayEpochTime := some (parseDate el2.displayTime),
             type := some "egvs" }

/-- Embedding of the tail of DexcomData.getData (src/unnamed/part_000
lines 138-156). -/
def DexcomData.getData (parseDate : String → Int) (data : Option EgvsResponse) :
    DexcomDataResult EgvsResponse EgvRecord :=
  match data with
  | some d =>
    match d.egvs with
    | some arr => .records (arr.map (normalizeEgvRecord parseDate d.unit d.rateUnit))
    | none => .raw data
  | none => .raw data

/-- Embedding of the map callback of src/unnamed/part_000 lines 176-181. -/
def normalizeEventRecord (parseDate : String → Int) (el : TimedRecord) : TimedRecord :=
  { el with systemEpochTime := some (parseDate el.systemTime),
            displayEpochTime := some (parseDate el.displayTime),
            type := some "events" }

/-- Embedding of the tail of DexcomData.getEvents (src/unnamed/part_000
lines 173-184). -/
def DexcomData.getEvents (parseDate : String → Int) (data : Option EventsResponse) :
    DexcomDataResult EventsResponse TimedRecord :=
  match data with
  | some d =>
    match d.events with
    | some arr => .records (arr.map (normalizeEventRecord parseDate))
    | none => .raw data
  | none => .raw data

/-- Embedding of the map callback of src/unnamed/part_000 lines 213-217. -/
def normalizeCalibrationRecord (parseDate : String → Int) (el : TimedRecord) : TimedRecord :=
  { el with systemEpochTime := some (parseDate el.systemTime),
            displayEpochTime := some (parseDate el.displayTime),
            type := some "calibrations" }

/-- Embedding of the tail of DexcomData.getCalibrations (src/unnamed/part_000
lines 210-221). -/
def DexcomData.getCalibrations (parseDate : String → Int)
    (data : Option CalibrationsResponse) :
    DexcomDataResult CalibrationsResponse TimedRecord :=
  match data with
  | some d =>
    match d.calibrations with
    | some arr => .records (arr.map (normalizeCalibrationRecord parseDate))
    | none => .raw data
  | none => .raw data

/-! ## Helper lemmas -/

/-- Sequencing an assert: continue when the condition holds, throw the
AssertionError otherwise. -/
theorem assertE_bind {β : Type} (b : Bool) (msg : String) (k : Unit → Except JsError β) :
    (assertE b msg >>= k) = if b then k () else .error (.assertionError msg) := by
  cases b <;> rfl

/-- Bind after a successful Except computation. -/
theorem ok_bind {β γ : Type} (a : β) (k : β → Except JsError γ) :
    ((Except.ok a : Except JsError β) >>= k) = k a := rfl

/-- Bind after a thrown Except computation. -/
theorem error_bind {β γ : Type} (e : JsError) (k : β → Except JsError γ) :
    ((Except.error e : Except JsError β) >>= k) = .error e := rfl

/-- Claim C5 counterexample: the pair (0, 1) has both bounds non-negative and
the start strictly below the end, yet validateTimeWindow rejects it, because
assert(startTime) tests JavaScript truthiness and the number 0 is falsy. -/
theorem C5_counterexample :
    (0 : Int) ≤ 0 ∧ (0 : Int) < 1 ∧
    validateTimeWindow (some 0) (some 1) =
      .error (.assertionError "startTime must be provided") := by
  refine ⟨le_refl 0, by norm_num, rfl⟩

/-- Claim C5 (amended): validateTimeWindow succeeds exactly when both bounds
are present, the start is strictly positive (the value 0 is falsy, so it
fails the provided check exactly as a missing bound does), the start is
strictly below the end, and the end is within the schema's 64-bit maximum;
it fails in every other case, in particular for negative bounds and for
start not strictly below end. -/
theorem C5_validateTimeWindow (startTime endTime : Option Int) :
    validateTimeWindow startTime endTime = .ok () ↔
      ∃ s e : Int, startTime = some s ∧ endTime = some e ∧ 0 < s ∧ s < e ∧
        e ≤ 9223372036854775807 := by
  constructor
  · intro h
    match startTime, endTime with
    | none, _ =>
      simp only [validateTimeWindow, assertE_bind, jsTruthyNum, if_false,
        Bool.false_eq_true, reduceCtorEq] at h
    | some s, none =>
      simp only [validateTimeWindow, assertE_bind, jsTruthyNum] at h
      split_ifs at h
      all_goals simp_all
    | some s, some e =>
      refine ⟨s, e, rfl, rfl, ?_, ?_, ?_⟩ <;>
      · simp only [validateTimeWindow, assertE_bind, jsTruthyNum,
          Option.getD_some, assertE] at h
        split_ifs at h with h1 h2 h3 h4 h5 <;>
          simp only [ok_bind, error_bind, reduceCtorEq] at h
        simp only [bne_iff_ne, ne_eq, schemaEpochTimeValid, Bool.and_eq_true,
          decide_eq_true_eq] at h1 h2 h3 h4 h5
        omega
  · rintro ⟨s, e, rfl, rfl, hpos, hlt, hle⟩
    have h1 : (s != 0) = true := by simp only [bne_iff_ne, ne_eq]; omega
    have h2 : (e != 0) = true := by simp only [bne_iff_ne, ne_eq]; omega
    have h3 : schemaEpochTimeValid s = true := by
      simp only [schemaEpochTimeValid, Bool.and_eq_true, decide_eq_true_eq]
      omega
    have h4 : schemaEpochTimeValid e = true := by
      simp only [schemaEpochTimeValid, Bool.and_eq_true, decide_eq_true_eq]
      omega
    have h5 : decide (s < e) = true := by simp only [decide_eq_true_eq]; omega
    simp only [validateTimeWindow, assertE_bind, jsTruthyNum, Option.getD_some,
      h1, h2, h3, h4, h5, if_true, assertE, ok_bind]

/-- Each window's end coincides with the start of the window after it. -/
def consecutiveWindows : List TimeWindow → Prop
  | [] => True
  | [_] => True
  | w1 :: w2 :: rest => w1.endTime = w2.startTime ∧ consecutiveWindows (w2 :: rest)

/-- Unfolding equation for one iteration of the splitter loop. -/
theorem splitTimeWindows_unfold (t e : Int) :
    splitTimeWindows t e =
      if t ≤ e then
        ⟨t, if t + maxTimeRangeMilliSec ≤ e then t + maxTimeRangeMilliSec else e⟩ ::
          splitTimeWindows (t + maxTimeRangeMilliSec) e
      else [] := by
  rw [splitTimeWindows]

/-- The splitter emits at least one window when the loop condition holds at
entry. -/
theorem splitTimeWindows_ne_nil (t e : Int) (h : t ≤ e) :
    splitTimeWindows t e ≠ [] := by
  rw [splitTimeWindows_unfold, if_pos h]
  simp

/-- The first emitted window starts at the initial loop index. -/
theorem splitTimeWindows_head (t e : Int) (h : t ≤ e) :
    ∀ w, (splitTimeWindows t e).head? = some w → w.startTime = t := by
  intro w hw
  rw [splitTimeWindows_unfold, if_pos h] at hw
  simp only [List.head?_cons, Option.some.injEq] at hw
  rw [← hw]

/-- Consecutive windows share their boundary instants. -/
theorem splitTimeWindows_consecutive (t e : Int) :
    consecutiveWindows (splitTimeWindows t e) := by
  induction t, e using splitTimeWindows.induct with
  | case1 t e h ih =>
    rw [splitTimeWindows_unfold, if_pos h]
    by_cases h2 : t + maxTimeRangeMilliSec ≤ e
    · have htail := splitTimeWindows_unfold (t + maxTimeRangeMilliSec) e
      rw [if_pos h2] at htail
      rw [if_pos h2, htail]
      refine ⟨rfl, ?_⟩
      rw [← htail]
      exact ih
    · have htail := splitTimeWindows_unfold (t + maxTimeRangeMilliSec) e
      rw [if_neg h2] at htail
      rw [if_neg h2, htail]
      exact trivial
  | case2 t e h =>
    rw [splitTimeWindows_unfold, if_neg h]
    exact trivial

/-- Every emitted window is well ordered and spans at most 89 days. -/
theorem splitTimeWindows_span (t e : Int) :
    ∀ w ∈ splitTimeWindows t e, w.startTime ≤ w.endTime ∧
      w.endTime - w.startTime ≤ maxTimeRangeMilliSec := by
  induction t, e using splitTimeWindows.induct with
  | case1 t e h ih =>
    rw [splitTimeWindows_unfold, if_pos h]
    intro w hw
    rcases List.mem_cons.mp hw with rfl | hw'
    · dsimp only
      by_cases h2 : t + maxTimeRangeMilliSec ≤ e
      · rw [if_pos h2]
        simp only [maxTimeRangeMilliSec]
        omega
      · rw [if_neg h2]
        simp only [maxTimeRangeMilliSec] at h2 ⊢
        omega
    · exact ih w hw'
  | case2 t e h =>
    rw [splitTimeWindows_unfold, if_neg h]
    intro w hw
    cases hw

/-- Dropping the head of a list with a nonempty tail keeps the last
element. -/
theorem getLast?_cons_of_ne_nil {α : Type} (a : α) (l : List α) (h : l ≠ []) :
    (a :: l).getLast? = l.getLast? := by
  cases l with
  | nil => exact absurd rfl h
  | cons b l' => simp [List.getLast?_cons_cons]

/-- The final emitted window ends exactly at the requested end time. -/
theorem splitTimeWindows_getLast (t e : Int) (hte : t ≤ e) :
    ∀ w, (splitTimeWindows t e).getLast? = some w → w.endTime = e := by
  induction t, e using splitTimeWindows.induct with
  | case1 t e h ih =>
    intro w hw
    rw [splitTimeWindows_unfold, if_pos h] at hw
    by_cases h2 : t + maxTimeRangeMilliSec ≤ e
    · rw [getLast?_cons_of_ne_nil _ _ (splitTimeWindows_ne_nil _ _ h2)] at hw
      exact ih h2 w hw
    · have htail := splitTimeWindows_unfold (t + maxTimeRangeMilliSec) e
      rw [if_neg h2] at htail
      rw [if_neg h2, htail] at hw
      have hw' : some (⟨t, e⟩ : TimeWindow) = some w := hw
      injection hw' with hw''
      rw [← hw'']
  | case2 t e h =>
    exact absurd hte h

/-! ## Concrete sample values used by witnesses and counterexamples -/

/-- Concrete provider token with a 7200 second lifetime. -/
def sampleDexcomToken : DexcomOAuthToken :=
  { access_token := "sample-access-token", expires_in := 7200,
    token_type := "Bearer", refresh_token := "sample-refresh-token" }

/-- Concrete envelope minted at epoch millisecond 0. -/
def sampleTokens : OAuthTokens :=
  { timestamp := 0, dexcomOAuthToken := sampleDexcomToken }

/-- Store holding the sample envelope at reference 0. -/
def sampleStore : TokenStore := { next := 1, mem := [(0, sampleTokens)] }

/-- Schema-valid configuration object. -/
def sampleOptions : PackageOptionsObj :=
  { clientId := some "client-id", clientSecret := some "secret",
    redirectUri := some "https://example.org/cb",
    apiUri := some "https://api.example.org" }

/-- Claim C1: the guard of refreshAccessToken judges the envelope usable
exactly when force is false and now + 60000 is strictly below timestamp +
expires_in * 1000 (so exactly 60000 remaining milliseconds triggers the
refresh branch), and a usable envelope is returned as the very same
reference with the store untouched; on the refresh branch, however, the
function throws a ReferenceError on the unbound identifier querystring
instead of performing the exchange and returning a freshly timestamped
envelope, which is the divergence recorded for this claim. -/
theorem C1_refreshAccessToken (httpResult : Except JsError DexcomOAuthToken)
    (tAcq now : Int) (store : TokenStore) (r : Ref) (tok : OAuthTokens) (force : Bool)
    (h : store.get r = some tok) :
    refreshAccessToken (helpersCallEnv httpResult tAcq) now store r force =
      if force = false ∧
          now + 60000 < tok.timestamp + tok.dexcomOAuthToken.expires_in * 1000 then
        (store, .ok r)
      else
        (store, .error (.referenceError "querystring")) := by
  have hqm : ¬("querystring" ∈ helpersModuleScope) := by decide
  unfold refreshAccessToken helpersCallEnv
  simp only [h, aboutToExpireThresholdSeconds, millisecondsPerSecond]
  cases force with
  | true => norm_num [hqm]
  | false =>
    by_cases hlt : now + 60000 < tok.timestamp + tok.dexcomOAuthToken.expires_in * 1000
    · norm_num [hqm, hlt]
    · norm_num [hqm, hlt]

/-- Witness for claim C1: the sample envelope evaluated far past its expiry
throws the ReferenceError, and evaluated shortly after minting is returned
as the same reference with the store untouched. -/
theorem C1_refreshAccessToken_witness :
    sampleStore.get 0 = some sampleTokens ∧
    refreshAccessToken (helpersCallEnv (.ok sampleDexcomToken) 1586101155001)
        1586101155000 sampleStore 0 false =
      (sampleStore, .error (.referenceError "querystring")) ∧
    refreshAccessToken (helpersCallEnv (.ok sampleDexcomToken) 1001) 1000
        sampleStore 0 false =
      (sampleStore, .ok 0) := by
  refine ⟨rfl, ?_, ?_⟩
  · rw [C1_refreshAccessToken (.ok sampleDexcomToken) 1586101155001 1586101155000
      sampleStore 0 sampleTokens false rfl]
    norm_num [sampleTokens, sampleDexcomToken]
  · rw [C1_refreshAccessToken (.ok sampleDexcomToken) 1001 1000
      sampleStore 0 sampleTokens false rfl]
    norm_num [sampleTokens, sampleDexcomToken]

/-- Claim C3: the module scope of src/helpers.js binds neither querystring
nor httpClient, the call environment used by the data-fetch operations has
no options on this, every call that reaches the refresh branch throws the
ReferenceError on querystring before completing the exchange, and no call of
refreshAccessToken through this module can ever return anything but the very
reference it was given. -/
theorem C3_refreshThrows (httpResult : Except JsError DexcomOAuthToken)
    (tAcq now : Int) (store : TokenStore) (r : Ref) (tok : OAuthTokens) (force : Bool)
    (h : store.get r = some tok)
    (hbranch : force = true ∨
      tok.timestamp + tok.dexcomOAuthToken.expires_in * 1000 ≤ now + 60000) :
    helpersModuleScope.contains "querystring" = false ∧
    helpersModuleScope.contains "httpClient" = false ∧
    (helpersCallEnv httpResult tAcq).thisOptions = none ∧
    refreshAccessToken (helpersCallEnv httpResult tAcq) now store r force =
      (store, .error (.referenceError "querystring")) ∧
    (∀ (now2 : Int) (store2 : TokenStore) (r2 : Ref) (force2 : Bool)
        (store3 : TokenStore) (r3 : Ref),
      refreshAccessToken (helpersCallEnv httpResult tAcq) now2 store2 r2 force2 =
          (store3, .ok r3) →
      r3 = r2 ∧ store3 = store2) := by
  have hq : helpersModuleScope.contains "querystring" = false := by decide
  refine ⟨hq, by decide, rfl, ?_, ?_⟩
  · unfold refreshAccessToken helpersCallEnv
    simp only [h, aboutToExpireThresholdSeconds, millisecondsPerSecond]
    have hgfalse : (!force && decide (now + 60 * 1000 <
        tok.timestamp + tok.dexcomOAuthToken.expires_in * 1000)) = false := by
      rcases hbranch with hb | hb
      · subst hb
        rfl
      · have hdec : decide (now + 60 * 1000 <
            tok.timestamp + tok.dexcomOAuthToken.expires_in * 1000) = false := by
          simp only [decide_eq_false_iff_not]
          omega
        rw [hdec, Bool.and_false]
    rw [if_neg (show ¬((!force && decide (now + 60 * 1000 <
        tok.timestamp + tok.dexcomOAuthToken.expires_in * 1000)) = true) from by
      rw [hgfalse]
      simp)]
    rw [if_pos (show (!(helpersModuleScope.contains "querystring")) = true by decide)]
  · intro now2 store2 r2 force2 store3 r3 hok
    unfold refreshAccessToken helpersCallEnv at hok
    cases hget : store2.get r2 with
    | none =>
      simp only [hget, reduceCtorEq, Prod.mk.injEq] at hok
      exact absurd hok.2 (by simp)
    | some tok2 =>
      simp only [hget] at hok
      by_cases hg : (!force2 && decide (now2 + aboutToExpireThresholdSeconds *
          millisecondsPerSecond < tok2.timestamp +
          tok2.dexcomOAuthToken.expires_in * millisecondsPerSecond)) = true
      · rw [if_pos hg] at hok
        injection hok with ha hb
        injection hb with hb
        exact ⟨hb.symm, ha.symm⟩
      · rw [if_neg hg] at hok
        rw [if_pos (show (!(helpersModuleScope.contains "querystring")) = true
          by decide)] at hok
        injection hok with ha hb
        exact absurd hb (by simp)

/-- Witness for claim C3: the sample envelope, expired at the sample clock,
instantiates every conjunct. -/
theorem C3_refreshThrows_witness :
    sampleStore.get 0 = some sampleTokens ∧
    (sampleTokens.timestamp + sampleTokens.dexcomOAuthToken.expires_in * 1000 ≤
      1586101155000 + 60000) ∧
    (helpersModuleScope.contains "querystring" = false ∧
     helpersModuleScope.contains "httpClient" = false ∧
     (helpersCallEnv (.ok sampleDexcomToken) 1586101155001).thisOptions = none ∧
     refreshAccessToken (helpersCallEnv (.ok sampleDexcomToken) 1586101155001)
         1586101155000 sampleStore 0 false =
       (sampleStore, .error (.referenceError "querystring")) ∧
     (∀ (now2 : Int) (store2 : TokenStore) (r2 : Ref) (force2 : Bool)
         (store3 : TokenStore) (r3 : Ref),
       refreshAccessToken (helpersCallEnv (.ok sampleDexcomToken) 1586101155001)
           now2 store2 r2 force2 = (store3, .ok r3) →
       r3 = r2 ∧ store3 = store2)) :=
  ⟨rfl, by norm_num [sampleTokens, sampleDexcomToken],
   C3_refreshThrows (.ok sampleDexcomToken) 1586101155001 1586101155000
     sampleStore 0 sampleTokens false rfl
     (Or.inr (by norm_num [sampleTokens, sampleDexcomToken]))⟩

/-- Fetch environment whose clock sits far past the sample envelope's
expiry, so the refresh branch is taken. -/
def feExpired : FetchEnv Unit :=
  { storedOptions := some sampleOptions, uriOk := fun _ => true,
    now := 1586101155000, refreshHttpResult := .ok sampleDexcomToken,
    refreshAcquisitionTime := 1586101155001, httpData := () }

/-- Fetch environment whose clock sits shortly after minting, so the sample
envelope is still usable. -/
def feFresh : FetchEnv Unit :=
  { storedOptions := some sampleOptions, uriOk := fun _ => true,
    now := 1000, refreshHttpResult := .ok sampleDexcomToken,
    refreshAcquisitionTime := 1001, httpData := () }

/-- Claim C2: a data-fetch call with a Fresh envelope succeeds and its result
carries no oauthTokens field (the refreshed reference is identical to the
input), but a call with an Expiring envelope does not return a result with a
reference-distinct envelope as the claim states: it throws the
ReferenceError of the broken refresh branch, shown here for the glucose
operation and for getDataRange at concrete inputs. -/
theorem C2_tokenFieldPresence :
    DexcomJS.getEstimatedGlucoseValues feFresh sampleStore 0
        (some 1447858800000) (some 1447862400000) =
      (sampleStore, .ok { payload := (), oauthTokens := none }) ∧
    DexcomJS.getEstimatedGlucoseValues feExpired sampleStore 0
        (some 1447858800000) (some 1447862400000) =
      (sampleStore, .error (.referenceError "querystring")) ∧
    DexcomJS.getDataRange feExpired sampleStore 0 =
      (sampleStore, .error (.referenceError "querystring")) := by
  refine ⟨?_, ?_, ?_⟩ <;> rfl

/-- Reading any reference below the allocation frontier is unaffected by an
allocation. -/
theorem alloc_get_lt (store : TokenStore) (v : OAuthTokens) (q : Ref)
    (hq : q < store.next) :
    (store.alloc v).2.get q = store.get q := by
  have hne : (store.next == q) = false := by
    simp only [beq_eq_false_iff_ne, ne_eq]
    exact ne_of_gt hq
  simp [TokenStore.alloc, TokenStore.get, List.find?, hne]

/-- Every call of refreshAccessToken either returns the input reference with
the store untouched, throws with the store untouched, or allocates one
brand-new envelope and returns its fresh reference. -/
theorem refresh_result_cases (env : RefreshEnv) (now : Int) (store : TokenStore)
    (r : Ref) (force : Bool) :
    refreshAccessToken env now store r force = (store, .ok r) ∨
    (∃ err, refreshAccessToken env now store r force = (store, .error err)) ∨
    (∃ v, refreshAccessToken env now store r force =
      ((store.alloc v).2, .ok (store.alloc v).1)) := by
  obtain ⟨scope, thisOptions, httpResult, acqT⟩ := env
  unfold refreshAccessToken
  cases store.get r with
  | none => exact Or.inr (Or.inl ⟨_, rfl⟩)
  | some tok =>
    dsimp only
    split_ifs
    · exact Or.inl rfl
    · exact Or.inr (Or.inl ⟨_, rfl⟩)
    · cases thisOptions <;> exact Or.inr (Or.inl ⟨_, rfl⟩)
    · cases thisOptions with
      | none => exact Or.inr (Or.inl ⟨_, rfl⟩)
      | some o =>
        cases httpResult with
        | error e => exact Or.inr (Or.inl ⟨_, rfl⟩)
        | ok data => exact Or.inr (Or.inr ⟨_, rfl⟩)

/-- refreshAccessToken never changes any object that existed before the
call. -/
theorem refresh_get_frame (env : RefreshEnv) (now : Int) (store : TokenStore)
    (r : Ref) (force : Bool) (q : Ref) (hq : q < store.next) :
    ((refreshAccessToken env now store r force).1).get q = store.get q := by
  rcases refresh_result_cases env now store r force with hcase | ⟨err, hcase⟩ | ⟨v, hcase⟩
  · rw [hcase]
  · rw [hcase]
  · rw [hcase]
    exact alloc_get_lt store v q hq

/-- A successful refreshAccessToken call returns either the input reference
or the freshly allocated one. -/
theorem refresh_ok_ref (env : RefreshEnv) (now : Int) (store : TokenStore)
    (r : Ref) (force : Bool) (store1 : TokenStore) (r1 : Ref)
    (hok : refreshAccessToken env now store r force = (store1, .ok r1)) :
    r1 = r ∨ r1 = store.next := by
  rcases refresh_result_cases env now store r force with hcase | ⟨err, hcase⟩ | ⟨v, hcase⟩
  · rw [hcase] at hok
    injection hok with ha hb
    injection hb with hb
    exact Or.inl hb.symm
  · rw [hcase] at hok
    injection hok with ha hb
    exact absurd hb (by simp)
  · rw [hcase] at hok
    injection hok with ha hb
    injection hb with hb
    exact Or.inr hb.symm

/-- The glucose-values operation never changes a pre-existing envelope
object. -/
theorem egvs_get_frame {α : Type} (fe : FetchEnv α) (store : TokenStore) (r : Ref)
    (s e : Option Int) (q : Ref) (hq : q < store.next) :
    ((DexcomJS.getEstimatedGlucoseValues fe store r s e).1).get q = store.get q := by
  unfold DexcomJS.getEstimatedGlucoseValues
  cases validateOptions fe.uriOk fe.storedOptions with
  | error e1 => rfl
  | ok u1 =>
  cases validateOAuthTokens (store.get r) with
  | error e1 => rfl
  | ok u2 =>
  cases validateTimeWindow s e with
  | error e1 => rfl
  | ok u3 =>
  have hframe := refresh_get_frame
    (helpersCallEnv fe.refreshHttpResult fe.refreshAcquisitionTime) fe.now store r false q hq
  cases hr : refreshAccessToken
      (helpersCallEnv fe.refreshHttpResult fe.refreshAcquisitionTime) fe.now store r false with
  | mk store1 res =>
    rw [hr] at hframe
    cases res with
    | error e1 => exact hframe
    | ok r1 => exact hframe

/-- The events operation never changes a pre-existing envelope object. -/
theorem events_get_frame {α : Type} (fe : FetchEnv α) (store : TokenStore) (r : Ref)
    (s e : Option Int) (q : Ref) (hq : q < store.next) :
    ((DexcomJS.getEvents fe store r s e).1).get q = store.get q := by
  unfold DexcomJS.getEvents
  cases validateOptions fe.uriOk fe.storedOptions with
  | error e1 => rfl
  | ok u1 =>
  cases validateOAuthTokens (store.get r) with
  | error e1 => rfl
  | ok u2 =>
  cases validateTimeWindow s e with
  | error e1 => rfl
  | ok u3 =>
  have hframe := refresh_get_frame
    (helpersCallEnv fe.refreshHttpResult fe.refreshAcquisitionTime) fe.now store r false q hq
  cases hr : refreshAccessToken
      (helpersCallEnv fe.refreshHttpResult fe.refreshAcquisitionTime) fe.now store r false with
  | mk store1 res =>
    rw [hr] at hframe
    cases res with
    | error e1 => exact hframe
    | ok r1 => exact hframe

/-- The data-range operation never changes a pre-existing envelope object. -/
theorem dataRange_get_frame {α : Type} (fe : FetchEnv α) (store : TokenStore) (r : Ref)
    (q : Ref) (hq : q < store.next) :
    ((DexcomJS.getDataRange fe store r).1).get q = store.get q := by
  unfold DexcomJS.getDataRange
  cases validateOptions fe.uriOk fe.storedOptions with
  | error e1 => rfl
  | ok u1 =>
  cases validateOAuthTokens (store.get r) with
  | error e1 => rfl
  | ok u2 =>
  have hframe := refresh_get_frame
    (helpersCallEnv fe.refreshHttpResult fe.refreshAcquisitionTime) fe.now store r false q hq
  cases hr : refreshAccessToken
      (helpersCallEnv fe.refreshHttpResult fe.refreshAcquisitionTime) fe.now store r false with
  | mk store1 res =>
    rw [hr] at hframe
    cases res with
    | error e1 => exact hframe
    | ok r1 => exact hframe

/-- The calibrations operation never changes a pre-existing envelope
object. -/
theorem calibrations_get_frame {α : Type} (fe : FetchEnv α) (store : TokenStore)
    (r : Ref) (s e : Option Int) (q : Ref) (hq : q < store.next) :
    ((DexcomJS.getCalibrations fe store r s e).1).get q = store.get q := by
  unfold DexcomJS.getCalibrations
  cases validateOptions fe.uriOk fe.storedOptions with
  | error e1 => rfl
  | ok u1 =>
  cases validateOAuthTokens (store.get r) with
  | error e1 => rfl
  | ok u2 =>
  cases validateTimeWindow s e with
  | error e1 => rfl
  | ok u3 =>
  have hframe := refresh_get_frame
    (helpersCallEnv fe.refreshHttpResult fe.refreshAcquisitionTime) fe.now store r false q hq
  cases hr : refreshAccessToken
      (helpersCallEnv fe.refreshHttpResult fe.refreshAcquisitionTime) fe.now store r false with
  | mk store1 res =>
    rw [hr] at hframe
    cases res with
    | error e1 => exact hframe
    | ok r1 => exact hframe

/-- The statistics operation never changes a pre-existing envelope object. -/
theorem statistics_get_frame {α : Type} (fe : FetchEnv α) (store : TokenStore)
    (r : Ref) (s e : Option Int) (q : Ref) (hq : q < store.next) :
    ((DexcomJS.getStatistics fe store r s e).1).get q = store.get q := by
  unfold DexcomJS.getStatistics
  cases validateOptions fe.uriOk fe.storedOptions with
  | error e1 => rfl
  | ok u1 =>
  cases validateOAuthTokens (store.get r) with
  | error e1 => rfl
  | ok u2 =>
  cases validateTimeWindow s e with
  | error e1 => rfl
  | ok u3 =>
  have hframe := refresh_get_frame
    (helpersCallEnv fe.refreshHttpResult fe.refreshAcquisitionTime) fe.now store r false q hq
  cases hr : refreshAccessToken
      (helpersCallEnv fe.refreshHttpResult fe.refreshAcquisitionTime) fe.now store r false with
  | mk store1 res =>
    rw [hr] at hframe
    cases res with
    | error e1 => exact hframe
    | ok r1 => exact hframe

/-- Claim C9: no data-fetch operation and no refreshAccessToken call ever
changes a pre-existing envelope object in the store (so all fields of the
caller's envelope are the same after the call as before it); a usable
envelope is returned as the very same reference with the store untouched,
and any successfully refreshed envelope is either the caller's own
reference or a brand-new allocation, never an overwrite of an existing
object. -/
theorem C9_noMutation (env : RefreshEnv) {α : Type} (fe : FetchEnv α) (now : Int)
    (store : TokenStore) (r : Ref) (force : Bool) (s e : Option Int) (q : Ref)
    (hq : q < store.next) :
    ((refreshAccessToken env now store r force).1).get q = store.get q ∧
    (∀ store1 r1, refreshAccessToken env now store r force = (store1, .ok r1) →
        r1 = r ∨ r1 = store.next) ∧
    ((DexcomJS.getEstimatedGlucoseValues fe store r s e).1).get q = store.get q ∧
    ((DexcomJS.getEvents fe store r s e).1).get q = store.get q ∧
    ((DexcomJS.getDataRange fe store r).1).get q = store.get q ∧
    ((DexcomJS.getCalibrations fe store r s e).1).get q = store.get q ∧
    ((DexcomJS.getStatistics fe store r s e).1).get q = store.get q :=
  ⟨refresh_get_frame env now store r force q hq,
   fun store1 r1 hok => refresh_ok_ref env now store r force store1 r1 hok,
   egvs_get_frame fe store r s e q hq,
   events_get_frame fe store r s e q hq,
   dataRange_get_frame fe store r q hq,
   calibrations_get_frame fe store r s e q hq,
   statistics_get_frame fe store r s e q hq⟩

/-- Witness for claim C9 at the sample store, reference 0, and the expired
fetch environment. -/
theorem C9_noMutation_witness :
    (0 : Ref) < sampleStore.next ∧
    (((refreshAccessToken (helpersCallEnv (.ok sampleDexcomToken) 1586101155001)
        1586101155000 sampleStore 0 false).1).get 0 = sampleStore.get 0 ∧
     (∀ store1 r1, refreshAccessToken (helpersCallEnv (.ok sampleDexcomToken) 1586101155001)
          1586101155000 sampleStore 0 false = (store1, .ok r1) →
        r1 = 0 ∨ r1 = sampleStore.next) ∧
     ((DexcomJS.getEstimatedGlucoseValues feExpired sampleStore 0
        (some 1447858800000) (some 1447862400000)).1).get 0 = sampleStore.get 0 ∧
     ((DexcomJS.getEvents feExpired sampleStore 0
        (some 1447858800000) (some 1447862400000)).1).get 0 = sampleStore.get 0 ∧
     ((DexcomJS.getDataRange feExpired sampleStore 0).1).get 0 = sampleStore.get 0 ∧
     ((DexcomJS.getCalibrations feExpired sampleStore 0
        (some 1447858800000) (some 1447862400000)).1).get 0 = sampleStore.get 0 ∧
     ((DexcomJS.getStatistics feExpired sampleStore 0
        (some 1447858800000) (some 1447862400000)).1).get 0 = sampleStore.get 0) :=
  ⟨by decide,
   C9_noMutation (helpersCallEnv (.ok sampleDexcomToken) 1586101155001) feExpired
     1586101155000 sampleStore 0 false (some 1447858800000) (some 1447862400000) 0
     (by decide)⟩

/-- Every non-negative time value below the year-10000 boundary has a
Gregorian year of at most 9999. -/
theorem civilFromDays_year_le (t : Nat) (h : t < year10000Millis) :
    (civilFromDays (t / millisPerDay)).1 ≤ 9999 := by
  unfold civilFromDays millisPerDay year10000Millis at *
  simp only []
  split_ifs <;> omega

/-- Character list of the dexcomified time of an in-range input: four year
digits, two digits for each of month, day, hour, minute and second, and the
fixed separators, cut exactly after the seconds field. -/
theorem dexcomify_data_eq (t : Nat)
    (h9999 : (civilFromDays (t / millisPerDay)).1 ≤ 9999) :
    dexcomifyEpochTime t = String.mk
      [digitChar ((civilFromDays (t / millisPerDay)).1 / 1000),
       digitChar ((civilFromDays (t / millisPerDay)).1 / 100),
       digitChar ((civilFromDays (t / millisPerDay)).1 / 10),
       digitChar ((civilFromDays (t / millisPerDay)).1),
       '-',
       digitChar ((civilFromDays (t / millisPerDay)).2.1 / 10),
       digitChar ((civilFromDays (t / millisPerDay)).2.1),
       '-',
       digitChar ((civilFromDays (t / millisPerDay)).2.2 / 10),
       digitChar ((civilFromDays (t / millisPerDay)).2.2),
       'T',
       digitChar (t % millisPerDay / 3600000 / 10),
       digitChar (t % millisPerDay / 3600000),
       ':',
       digitChar (t % millisPerDay % 3600000 / 60000 / 10),
       digitChar (t % millisPerDay % 3600000 / 60000),
       ':',
       digitChar (t % millisPerDay % 60000 / 1000 / 10),
       digitChar (t % millisPerDay % 60000 / 1000)] := by
  unfold dexcomifyEpochTime toISOString jsSlice0to19
  simp only [if_pos h9999, pad2, pad3, pad4, String.data_append]
  rfl

/-- The digit characters produced by the renderer are decimal digits. -/
theorem digitChar_isDigit (n : Nat) : (digitChar n).isDigit = true := by
  unfold digitChar
  have h : n % 10 < 10 := Nat.mod_lt _ (by norm_num)
  interval_cases hk : n % 10 <;> decide

/-- Claim C4 counterexample: the first millisecond of year 10000 is a valid
JavaScript Date value, yet dexcomifyEpochTime renders it through the
expanded-year form of toISOString, and the 19-character slice is not of the
shape YYYY-MM-DDThh:mm:ss and is not a truncation after the seconds field. -/
theorem C4_counterexample :
    year10000Millis ≤ maxJsDateMillis ∧
    dexcomifyEpochTime year10000Millis = "+010000-01-01T00:00" ∧
    isDexcomDateString (dexcomifyEpochTime year10000Millis) = false := by
  refine ⟨by norm_num [year10000Millis, maxJsDateMillis], by decide, by decide⟩

/-- Claim C4 (amended): for every non-negative epoch input below the year
10000 boundary 253402300800000, dexcomifyEpochTime is the fixed 19-character
string YYYY-MM-DDThh:mm:ss obtained by rendering the timestamp as ISO-8601
and truncating right after the seconds field (toISOString is exactly this
truncation followed by the fractional seconds and the Z suffix), and for
input 1586101155000 it returns exactly 2020-04-05T15:39:15; determinism is
immediate since the embedding is a function. -/
theorem C4_dexcomify (t : Nat) (h : t < year10000Millis) :
    isDexcomDateString (dexcomifyEpochTime t) = true ∧
    (dexcomifyEpochTime t).length = 19 ∧
    toISOString t = dexcomifyEpochTime t ++ "." ++ pad3 (t % 1000) ++ "Z" ∧
    dexcomifyEpochTime 1586101155000 = "2020-04-05T15:39:15" := by
  have h9999 := civilFromDays_year_le t h
  refine ⟨?_, ?_, ?_, by decide⟩
  · rw [dexcomify_data_eq t h9999]
    simp [isDexcomDateString, digitChar_isDigit]
  · rw [dexcomify_data_eq t h9999]
    rfl
  · have hmod : t % millisPerDay % 1000 = t % 1000 :=
      Nat.mod_mod_of_dvd t (by norm_num [millisPerDay])
    rw [dexcomify_data_eq t h9999]
    unfold toISOString
    simp only [if_pos h9999, pad2, pad3, pad4, String.data_append]
    rw [← hmod]
    rfl

/-- Witness for claim C4 at the documented sample input, which lies below
the year-10000 boundary. -/
theorem C4_dexcomify_witness :
    1586101155000 < year10000Millis ∧
    (isDexcomDateString (dexcomifyEpochTime 1586101155000) = true ∧
     (dexcomifyEpochTime 1586101155000).length = 19 ∧
     toISOString 1586101155000 =
       dexcomifyEpochTime 1586101155000 ++ "." ++ pad3 (1586101155000 % 1000) ++ "Z" ∧
     dexcomifyEpochTime 1586101155000 = "2020-04-05T15:39:15") :=
  ⟨by norm_num [year10000Millis],
   C4_dexcomify 1586101155000 (by norm_num [year10000Millis])⟩

/-- Glucose record as the provider returns it, with no annotation fields. -/
def sampleEgvRecord : EgvRecord :=
  { systemTime := "2015-11-18T15:05:00", displayTime := "2015-11-18T08:05:00",
    unit := none, rateUnit := none, systemEpochTime := none,
    displayEpochTime := none, type := none }

/-- Glucose response carrying response-level default units and one record. -/
def sampleEgvsResponse : EgvsResponse :=
  { unit := some "mg/dL", rateUnit := some "mg/dL/min",
    egvs := some [sampleEgvRecord] }

/-- Fetch environment delivering the sample glucose response with a fresh
clock. -/
def feEgvsFresh : FetchEnv EgvsResponse :=
  { storedOptions := some sampleOptions, uriOk := fun _ => true, now := 1000,
    refreshHttpResult := .ok sampleDexcomToken, refreshAcquisitionTime := 1001,
    httpData := sampleEgvsResponse }

/-- Claim C7 counterexample: the DexcomJS glucose operation of src/index.js
returns the provider payload untouched, so the record list of its result
still carries no systemEpochTime, displayEpochTime or type annotation at a
concrete input; the annotation step exists only in the DexcomData module. -/
theorem C7_counterexample :
    DexcomJS.getEstimatedGlucoseValues feEgvsFresh sampleStore 0
        (some 1447858800000) (some 1447862400000) =
      (sampleStore, .ok { payload := sampleEgvsResponse, oauthTokens := none }) ∧
    sampleEgvsResponse.egvs = some [sampleEgvRecord] ∧
    sampleEgvRecord.systemEpochTime = none ∧
    sampleEgvRecord.displayEpochTime = none ∧
    sampleEgvRecord.type = none := by
  refine ⟨rfl, rfl, rfl, rfl, rfl⟩

/-- Claim C7 (amended): in the DexcomData module, getData, getEvents and
getCalibrations map every element of the fetched list through the
annotation step, which sets systemEpochTime and displayEpochTime to the
parsed epoch mirrors of the two provider time strings and the literal
category tag, and for glucose records backfills unit and rateUnit from the
response-level defaults exactly when the record's own value is falsy; the
DexcomJS operations of src/index.js return the payload unmodified
(pass-through stated over every successful glucose call). -/
theorem C7_normalization (parseDate : String → Int) (u ru : Option String)
    (arr : List EgvRecord) (arrE arrC : List TimedRecord) :
    DexcomData.getData parseDate (some ⟨u, ru, some arr⟩) =
      .records (arr.map (normalizeEgvRecord parseDate u ru)) ∧
    (∀ el : EgvRecord,
      (normalizeEgvRecord parseDate u ru el).systemEpochTime =
        some (parseDate el.systemTime) ∧
      (normalizeEgvRecord parseDate u ru el).displayEpochTime =
        some (parseDate el.displayTime) ∧
      (normalizeEgvRecord parseDate u ru el).type = some "egvs" ∧
      (normalizeEgvRecord parseDate u ru el).unit =
        (if !(jsTruthyStr el.unit) && jsTruthyStr u then u else el.unit) ∧
      (normalizeEgvRecord parseDate u ru el).rateUnit =
        (if !(jsTruthyStr el.rateUnit) && jsTruthyStr ru then ru else el.rateUnit)) ∧
    DexcomData.getEvents parseDate (some ⟨some arrE⟩) =
      .records (arrE.map (normalizeEventRecord parseDate)) ∧
    (∀ el : TimedRecord,
      (normalizeEventRecord parseDate el).systemEpochTime =
        some (parseDate el.systemTime) ∧
      (normalizeEventRecord parseDate el).displayEpochTime =
        some (parseDate el.displayTime) ∧
      (normalizeEventRecord parseDate el).type = some "events") ∧
    DexcomData.getCalibrations parseDate (some ⟨some arrC⟩) =
      .records (arrC.map (normalizeCalibrationRecord parseDate)) ∧
    (∀ el : TimedRecord,
      (normalizeCalibrationRecord parseDate el).systemEpochTime =
        some (parseDate el.systemTime) ∧
      (normalizeCalibrationRecord parseDate el).displayEpochTime =
        some (parseDate el.displayTime) ∧
      (normalizeCalibrationRecord parseDate el).type = some "calibrations") ∧
    (∀ (payload : EgvsResponse) (fe : FetchEnv EgvsResponse) (store store1 : TokenStore)
        (r : Ref) (s e : Option Int) (res : FetchResult EgvsResponse),
      fe.httpData = payload →
      DexcomJS.getEstimatedGlucoseValues fe store r s e = (store1, .ok res) →
      res.payload = payload) := by
  refine ⟨rfl, ?_, rfl, ?_, rfl, ?_, ?_⟩
  · intro el
    unfold normalizeEgvRecord
    by_cases hu : (!(jsTruthyStr el.unit) && jsTruthyStr u) = true
    · by_cases hru : (!(jsTruthyStr el.rateUnit) && jsTruthyStr ru) = true
      · simp [hu, hru]
      · simp only [Bool.not_eq_true] at hru
        simp [hu, hru]
    · simp only [Bool.not_eq_true] at hu
      by_cases hru : (!(jsTruthyStr el.rateUnit) && jsTruthyStr ru) = true
      · simp [hu, hru]
      · simp only [Bool.not_eq_true] at hru
        simp [hu, hru]
  · intro el
    exact ⟨rfl, rfl, rfl⟩
  · intro el
    exact ⟨rfl, rfl, rfl⟩
  · intro payload fe store store1 r s e res hdata hcall
    unfold DexcomJS.getEstimatedGlucoseValues at hcall
    cases hv1 : validateOptions fe.uriOk fe.storedOptions with
    | error e1 => rw [hv1] at hcall; simp at hcall
    | ok u1 =>
    rw [hv1] at hcall
    cases hv2 : validateOAuthTokens (store.get r) with
    | error e1 => rw [hv2] at hcall; simp at hcall
    | ok u2 =>
    rw [hv2] at hcall
    cases hv3 : validateTimeWindow s e with
    | error e1 => rw [hv3] at hcall; simp at hcall
    | ok u3 =>
    rw [hv3] at hcall
    cases hr : refreshAccessToken
        (helpersCallEnv fe.refreshHttpResult fe.refreshAcquisitionTime) fe.now store r false with
    | mk store2 rres =>
      rw [hr] at hcall
      cases rres with
      | error e1 => simp at hcall
      | ok r1 =>
        injection hcall with ha hb
        injection hb with hb
        rw [← hb, ← hdata]

/-- Claim C6: for every window with startTime strictly below endTime the
89-day splitter emits a nonempty list of sub-windows whose first window
starts at startTime, in which each window's end equals the next window's
start (no gaps and no overlaps beyond shared boundary instants), every
window spans at most 89 days, and the last window ends at endTime; in
particular a 200-day window is split into exactly ceil(200/89) = 3
sub-windows covering it. -/
theorem C6_rangeChunking (s e : Int) (h : s < e) :
    splitTimeWindows s e ≠ [] ∧
    (∀ w, (splitTimeWindows s e).head? = some w → w.startTime = s) ∧
    consecutiveWindows (splitTimeWindows s e) ∧
    (∀ w ∈ splitTimeWindows s e, w.startTime ≤ w.endTime ∧
      w.endTime - w.startTime ≤ maxTimeRangeMilliSec) ∧
    (∀ w, (splitTimeWindows s e).getLast? = some w → w.endTime = e) ∧
    splitTimeWindows 0 (200 * 86400 * 1000) =
      [⟨0, 7689600000⟩, ⟨7689600000, 15379200000⟩, ⟨15379200000, 17280000000⟩] ∧
    (splitTimeWindows 0 (200 * 86400 * 1000)).length = 3 := by
  have hle : s ≤ e := le_of_lt h
  have hconc : splitTimeWindows 0 (200 * 86400 * 1000) =
      [⟨0, 7689600000⟩, ⟨7689600000, 15379200000⟩, ⟨15379200000, 17280000000⟩] := by
    repeat (rw [splitTimeWindows_unfold]; norm_num [maxTimeRangeMilliSec])
  refine ⟨splitTimeWindows_ne_nil s e hle, splitTimeWindows_head s e hle,
    splitTimeWindows_consecutive s e, splitTimeWindows_span s e,
    splitTimeWindows_getLast s e hle, hconc, ?_⟩
  rw [hconc]
  rfl

/-- Witness for claim C6: the splitter facts instantiated at the one-day
window from 0 to 86400000. -/
theorem C6_rangeChunking_witness :
    (0 : Int) < 86400000 ∧
    (splitTimeWindows 0 86400000 ≠ [] ∧
     (∀ w, (splitTimeWindows 0 86400000).head? = some w → w.startTime = 0) ∧
     consecutiveWindows (splitTimeWindows 0 86400000) ∧
     (∀ w ∈ splitTimeWindows 0 86400000, w.startTime ≤ w.endTime ∧
       w.endTime - w.startTime ≤ maxTimeRangeMilliSec) ∧
     (∀ w, (splitTimeWindows 0 86400000).getLast? = some w → w.endTime = 86400000) ∧
     splitTimeWindows 0 (200 * 86400 * 1000) =
       [⟨0, 7689600000⟩, ⟨7689600000, 15379200000⟩, ⟨15379200000, 17280000000⟩] ∧
     (splitTimeWindows 0 (200 * 86400 * 1000)).length = 3) :=
  ⟨by norm_num, C6_rangeChunking 0 86400000 (by norm_num)⟩

/-- Claim C8: rangeInDayIntervals returns the target end time unchanged, a
validity flag that is always true, and a start time equal to the local
midnight of the instant lookBackDays days before the end time clamped
forward to the parsed provider data start; the midnight instant has zero
local hour, minute, second and millisecond (its local offset representation
is divisible by one day) and lies within one day at or before the look-back
instant, and the returned start time is never earlier than the provider data
start. -/
theorem C8_rangeInDayIntervals (parseDate : String → Int) (tzOffsetMs : Int)
    (dataRange : DataRangeCategory) (endTime daysPast : Int) :
    (rangeInDayIntervals parseDate tzOffsetMs dataRange endTime daysPast).endTime
        = endTime ∧
    (rangeInDayIntervals parseDate tzOffsetMs dataRange endTime daysPast).valid
        = true ∧
    (rangeInDayIntervals parseDate tzOffsetMs dataRange endTime daysPast).startTime
        = max (jsSetHoursZero tzOffsetMs (endTime - daysPast * 86400 * 1000))
            (parseDate dataRange.start.systemTime) ∧
    parseDate dataRange.start.systemTime ≤
      (rangeInDayIntervals parseDate tzOffsetMs dataRange endTime daysPast).startTime ∧
    (jsSetHoursZero tzOffsetMs (endTime - daysPast * 86400 * 1000) + tzOffsetMs)
        % 86400000 = 0 ∧
    endTime - daysPast * 86400 * 1000 - 86400000 <
      jsSetHoursZero tzOffsetMs (endTime - daysPast * 86400 * 1000) ∧
    jsSetHoursZero tzOffsetMs (endTime - daysPast * 86400 * 1000) ≤
      endTime - daysPast * 86400 * 1000 := by
  refine ⟨rfl, rfl, ?_, ?_, ?_, ?_, ?_⟩
  · simp only [rangeInDayIntervals, jsSetHoursZero, max_def]
    split_ifs <;> omega
  · simp only [rangeInDayIntervals, jsSetHoursZero]
    split_ifs <;> omega
  · simp only [jsSetHoursZero]
    omega
  · simp only [jsSetHoursZero]
    omega
  · simp only [jsSetHoursZero]
    omega

/-- Claim C10: the set function of the options module validates before it
assigns: a null candidate and a candidate failing the schema check both
throw an AssertionError and leave the stored configuration untouched, while
a candidate passing the check replaces the stored configuration wholesale. -/
theorem C10_setOptions (uriOk : String → Bool) (stored : PackageOptionsObj)
    (c : PackageOptionsObj) :
    OptionsModule.set uriOk stored none =
      (.error (.assertionError "options must be provided"), stored) ∧
    OptionsModule.set uriOk stored (some c) =
      (if validPackageOptions uriOk c then (.ok (), c)
       else (.error (.assertionError "options must be valid"), stored)) := by
  refine ⟨rfl, ?_⟩
  by_cases h : validPackageOptions uriOk c = true
  · simp [OptionsModule.set, OptionsModule.validate, assertE_bind, assertE, h, ok_bind]
  · simp only [Bool.not_eq_true] at h
    simp [OptionsModule.set, OptionsModule.validate, assertE_bind, assertE, h, ok_bind,
      error_bind]

end DexcomJsModel
